import Mathlib

/-!
Verification development for the Blender <-> Autodesk 3ds Max bridge addon
(single source file `__init__.py`).  The asset-filtering pipeline of
`ImportMax.execute` (transform correction, category deletion, animation and
material stripping), the helper filters `_filter_objects_by_type`,
`_filter_animations_from_objects`, `_filter_materials_from_objects`, the
export selection loop of `ExportMax.export_max`, and the temporary-file /
reporting control flow of the two operators are embedded shallowly below.
Scene objects are identified by their unique names, as the host (Blender)
guarantees and the code relies on; host scene-graph calls such as
`select_set`, `bpy.ops.object.delete`, `animation_data_clear` are modelled
by their documented effect on the scene state.
-/

namespace MaxBridge

/-- Object category tag: the value of `obj.type` in the host scene graph. -/
inductive ObjType where
  | MESH
  | LIGHT
  | CAMERA
  | CURVE
  | ARMATURE
  | EMPTY
  | OTHER
deriving DecidableEq

/-- The literal `3.14159` the code assigns to `obj.rotation_euler.x`
(an exact decimal, represented exactly as the rational 314159/100000). -/
def rot180 : Rat := ⟨314159, 100000, by decide, by decide⟩

/-- The literal `0.01` the code assigns to each component of `obj.scale`. -/
def scale001 : Rat := ⟨1, 100, by decide, by decide⟩

/-- A live scene object.  `animData` is the truthiness of
`obj.animation_data`; `matSlots` is `obj.data.materials`, with `none`
standing for "`obj.data` is `None` or has no `materials` attribute"
(in Blender such objects carry no material-slot list at all). -/
structure SceneObject where
  name : String
  type : ObjType
  animData : Bool
  matSlots : Option (List String)
  rotX : Rat
  scaleX : Rat
  scaleY : Rat
  scaleZ : Rat
deriving DecidableEq

/-- The host scene: the live objects plus the active selection
(`bpy.context.selected_objects`, tracked by name). -/
structure Scene where
  objs : List SceneObject
  selected : List String
deriving DecidableEq

/-- Resolve a name to the live object, as `bpy.context.scene.objects[n]`. -/
def Scene.findName (s : Scene) (n : String) : Option SceneObject :=
  s.objs.find? (fun o => o.name == n)

/-- The membership test `n in bpy.context.scene.objects`. -/
def Scene.containsName (s : Scene) (n : String) : Bool :=
  s.objs.any (fun o => o.name == n)

/-- `bpy.ops.object.select_all(action='DESELECT')`. -/
def Scene.deselectAll (s : Scene) : Scene :=
  { s with selected := [] }

/-- Well-formedness of the host scene: object names are unique
(Blender enforces this). -/
def namesNodup (s : Scene) : Prop :=
  (s.objs.map SceneObject.name).Nodup

instance (s : Scene) : Decidable (namesNodup s) :=
  inferInstanceAs (Decidable ((s.objs.map SceneObject.name).Nodup))

/-- The Retention Configuration of one invocation of `ImportMax`:
the seven retention flags plus the two corrective-transform flags
(fields keep the operator property names `import_models`, ...,
`apply_scale`). -/
structure ImportConfig where
  import_models : Bool
  import_lights : Bool
  import_cameras : Bool
  import_splines : Bool
  import_animations : Bool
  import_materials : Bool
  import_armatures : Bool
  apply_rotation : Bool
  apply_scale : Bool
deriving DecidableEq

/-- Lines 722-729 of `ImportMax.execute`: deselect all, then select every
newly imported object (the first one also becomes active). -/
def prepSelect (s : Scene) (batch : List String) : Scene :=
  { s.deselectAll with selected := batch }

/-- Lines 732-735: `for obj in imported_objects: obj.rotation_euler.x = 3.14159`. -/
def applyRotationStep (s : Scene) (batch : List String) : Scene :=
  { s with objs := s.objs.map (fun o =>
      if batch.contains o.name then { o with rotX := rot180 } else o) }

/-- Lines 738-741: `for obj in imported_objects: obj.scale = (0.01, 0.01, 0.01)`. -/
def applyScaleStep (s : Scene) (batch : List String) : Scene :=
  { s with objs := s.objs.map (fun o =>
      if batch.contains o.name then
        { o with scaleX := scale001, scaleY := scale001, scaleZ := scale001 }
      else o) }

/-- Lines 731-741: the two conditional corrective-transform loops, in order. -/
def transformStage (s : Scene) (batch : List String) (c : ImportConfig) : Scene :=
  let s1 := if c.apply_rotation then applyRotationStep s batch else s
  if c.apply_scale then applyScaleStep s1 batch else s1

/-- `ImportMax._filter_objects_by_type` (lines 781-796): deselect all,
select the objects of `objectsToCheck` that still exist in the scene and
have type `objType`; with `keep = false` and a nonempty selection, issue
`bpy.ops.object.delete()` (removing exactly the selected objects) and
return the deleted set; otherwise deselect and return the targeted set
(empty when `keep = true`). -/
def filterObjectsByType (s : Scene) (objectsToCheck : List String)
    (objType : ObjType) (keep : Bool) : Scene × List String :=
  let s0 : Scene := s.deselectAll
  let targeted : List String := objectsToCheck.filter (fun n =>
    match s0.findName n with
    | some o => o.type == objType
    | none => false)
  let s1 : Scene := { s0 with selected := targeted }
  if !keep && !targeted.isEmpty then
    ({ objs := s1.objs.filter (fun o => !(s1.selected.contains o.name)),
       selected := [] }, targeted)
  else
    (s1.deselectAll, if keep then [] else targeted)

/-- One `if not self.import_X: processed_for_deletion.update(
self._filter_objects_by_type(imported_objects, T, keep=False))` line of
`ImportMax.execute` (lines 746-757). -/
def delStage (s : Scene) (batch : List String) (t : ObjType) (flagOff : Bool) :
    Scene × List String :=
  if flagOff then filterObjectsByType s batch t false else (s, [])

/-- `ImportMax._filter_animations_from_objects` (lines 807-814) with
`keep = false`: for every named object still in the scene whose
`animation_data` is truthy, call `animation_data_clear()`. -/
def clearAnimationsStep (s : Scene) (names : List String) : Scene :=
  { s with objs := s.objs.map (fun o =>
      if names.contains o.name && o.animData then { o with animData := false } else o) }

/-- `ImportMax._filter_materials_from_objects` (lines 816-822) with
`keep = false`: for every named object still in the scene whose data has a
nonempty `materials` collection, call `obj.data.materials.clear()`. -/
def clearMaterialsStep (s : Scene) (names : List String) : Scene :=
  { s with objs := s.objs.map (fun o =>
      if names.contains o.name then
        match o.matSlots with
        | some (_ :: _) => { o with matSlots := some [] }
        | _ => o
      else o) }

/-- Log line of `ImportMax.execute` line 735. -/
def msgRotApplied : String := "Applied X-axis 180 degree rotation."

/-- Log line of `ImportMax.execute` line 741. -/
def msgScaleApplied : String := "Applied 0.01 scale (shrunk by 100x)."

/-- Log line of `ImportMax.execute` line 759 (armature special case). -/
def msgArmatureKept : String :=
  "Models are off, but animations are on. Armatures will be kept if present."

/-- The result of the post-FBX-import filter section of
`ImportMax.execute`: the final scene, the accumulated
`processed_for_deletion` set, and the log lines the section emits. -/
structure PipelineOut where
  scene : Scene
  removed : List String
  log : List String
deriving DecidableEq

/-- Lines 746-759 of `ImportMax.execute`: the five conditional category
deletions, in source order, accumulating `processed_for_deletion`. -/
def catStage (s : Scene) (batch : List String) (c : ImportConfig) :
    Scene × List String :=
  let p1 := delStage s batch .MESH (!c.import_models)
  let p2 := delStage p1.1 batch .LIGHT (!c.import_lights)
  let p3 := delStage p2.1 batch .CAMERA (!c.import_cameras)
  let p4 := delStage p3.1 batch .CURVE (!c.import_splines)
  let p5 := delStage p4.1 batch .ARMATURE (!c.import_armatures)
  (p5.1, p1.2 ++ p2.2 ++ p3.2 ++ p4.2 ++ p5.2)

/-- Lines 761-765 of `ImportMax.execute`: strip animation data and
material slots from `remaining_after_deletion` when their flags are off
(each step is skipped when `remaining` is empty, as in the source). -/
def stripStage (s : Scene) (remaining : List String) (c : ImportConfig) : Scene :=
  let s8 := if !c.import_animations && !remaining.isEmpty
            then clearAnimationsStep s remaining else s
  if !c.import_materials && !remaining.isEmpty
  then clearMaterialsStep s8 remaining else s8

/-- Lines 719-767 of `ImportMax.execute`, from `if imported_objects:`
through the final `bpy.ops.object.select_all(action='DESELECT')`: select
the batch, apply the optional corrective transforms, run the five category
deletions (with the armature special case), compute
`remaining_after_deletion`, strip animations and materials when their
flags are off, then deselect everything. -/
def runFilterPipeline (s : Scene) (batch : List String) (c : ImportConfig) :
    PipelineOut :=
  if batch.isEmpty then
    { scene := s.deselectAll, removed := [], log := [] }
  else
    let s2 := transformStage (prepSelect s batch) batch c
    let logT := (if c.apply_rotation then [msgRotApplied] else [])
                ++ (if c.apply_scale then [msgScaleApplied] else [])
    let p := catStage s2.deselectAll batch c
    let logA := if !c.import_armatures then []
                else if !c.import_models && c.import_animations then [msgArmatureKept]
                else []
    let remaining := batch.filter (fun n => !(p.2.contains n))
    { scene := (stripStage p.1 remaining c).deselectAll
      removed := p.2
      log := logT ++ logA }

/-- The survivor set of one pipeline run: the batch members still present
in the scene afterwards. -/
def survivorsOf (out : PipelineOut) (batch : List String) : List String :=
  batch.filter (fun n => out.scene.containsName n)

/-- Summary predicate (proved, not assumed, to match the pipeline): the
configuration deletes category `t`. -/
def deletedCategory (c : ImportConfig) (t : ObjType) : Bool :=
  (t == .MESH && !c.import_models) || (t == .LIGHT && !c.import_lights)
  || (t == .CAMERA && !c.import_cameras) || (t == .CURVE && !c.import_splines)
  || (t == .ARMATURE && !c.import_armatures)

/-- Effect of `obj.data.materials.clear()` guarded by
`if obj.data.materials:`. -/
def clearedSlots : Option (List String) → Option (List String)
  | some (_ :: _) => some []
  | x => x

/-- Summary function (proved, not assumed, to characterise the pipeline):
what one kept batch object looks like after the pipeline. -/
def finalizeObj (c : ImportConfig) (o : SceneObject) : SceneObject :=
  { o with
    rotX := if c.apply_rotation then rot180 else o.rotX
    scaleX := if c.apply_scale then scale001 else o.scaleX
    scaleY := if c.apply_scale then scale001 else o.scaleY
    scaleZ := if c.apply_scale then scale001 else o.scaleZ
    animData := if c.import_animations then o.animData else false
    matSlots := if c.import_materials then o.matSlots else clearedSlots o.matSlots }

/-- The export filter flags of `ExportMax` (operator properties
`export_models`, ..., `export_animations`, `use_selection`). -/
structure ExportConfig where
  export_models : Bool
  export_lights : Bool
  export_cameras : Bool
  export_splines : Bool
  export_animations : Bool
  use_selection : Bool
deriving DecidableEq

/-- A candidate export object: its type and whether its name is in
`bpy.context.view_layer.objects` (line 362 skips objects that are not). -/
structure ExpObj where
  name : String
  type : ObjType
  inViewLayer : Bool
deriving DecidableEq

/-- The `should_select` decision of `ExportMax.export_max`
(lines 366-371): the if/elif chain over `obj.type` and the export flags. -/
def shouldSelectExport (c : ExportConfig) (o : ExpObj) : Bool :=
  if o.type == .MESH && c.export_models then true
  else if o.type == .LIGHT && c.export_lights then true
  else if o.type == .CAMERA && c.export_cameras then true
  else if o.type == .CURVE && c.export_splines then true
  else if o.type == .ARMATURE && (c.export_models || c.export_animations) then true
  else false

/-- The selection loop of `ExportMax.export_max` (lines 360-375): skip
objects outside the current view layer, then select an object exactly when
`should_select` holds.  The FBX export then runs with
`use_selection=True`, so this list is the exported object set. -/
def exportSelection (c : ExportConfig) (source : List ExpObj) : List ExpObj :=
  source.filter (fun o => o.inViewLayer && shouldSelectExport c o)

/-- Report level of `Operator.report`. -/
inductive ReportLevel where
  | INFO
  | WARNING
  | ERROR
deriving DecidableEq

/-- Return status of an operator `execute`. -/
inductive OpStatus where
  | FINISHED
  | CANCELLED
deriving DecidableEq

/-- Outcomes of the external-world steps of one `ImportMax.execute`
invocation, supplied as an oracle: validity of the chosen filepath and of
the configured 3ds Max Python path, whether `subprocess.run` raised, the
returncode of the conversion script, whether the intermediate FBX file
exists afterwards, and whether the Blender-side FBX import block raised. -/
structure ImportEnv where
  pathValid : Bool
  maxPythonOk : Bool
  convRunRaises : Bool
  convReturncode : Nat
  fbxExists : Bool
  fbxBlockRaises : Bool
deriving DecidableEq

/-- Observable outcome of one `ImportMax.execute` invocation: status,
reports, whether the generated conversion script
(`temp_max_to_fbx_for_blender_import.py` in the cache directory) was
written and whether it was ever removed, whether the `os.remove` cleanup
of the intermediate FBX file (line 770) was reached, and the final scene. -/
structure ImportRun where
  status : OpStatus
  reports : List (ReportLevel × String)
  scriptFileCreated : Bool
  scriptFileRemoved : Bool
  fbxRemoveAttempted : Bool
  finalScene : Scene
deriving DecidableEq

/-- `ImportMax.execute` (lines 618-779) as a function of the external
outcomes: the early-return error paths, then the FBX import try-block
whose tail runs the filter pipeline, removes the FBX file, and reports
success.  No path of the function removes the generated script file. -/
def runImportOperation (env : ImportEnv) (c : ImportConfig) (scenePost : Scene)
    (batch : List String) : ImportRun :=
  if !env.pathValid then
    { status := .CANCELLED
      reports := [(.ERROR, "Invalid file path or extension. Must be .max")]
      scriptFileCreated := false, scriptFileRemoved := false
      fbxRemoveAttempted := false, finalScene := scenePost }
  else if !env.maxPythonOk then
    { status := .CANCELLED
      reports := [(.ERROR, "3ds Max Python executable not found. Check Addon Preferences.")]
      scriptFileCreated := false, scriptFileRemoved := false
      fbxRemoveAttempted := false, finalScene := scenePost }
  else if env.convRunRaises then
    { status := .CANCELLED
      reports := [(.ERROR, "Failed to execute 3ds Max script.")]
      scriptFileCreated := true, scriptFileRemoved := false
      fbxRemoveAttempted := false, finalScene := scenePost }
  else if env.convReturncode != 0 then
    { status := .CANCELLED
      reports := [(.ERROR, "3ds Max conversion failed.")]
      scriptFileCreated := true, scriptFileRemoved := false
      fbxRemoveAttempted := false, finalScene := scenePost }
  else if !env.fbxExists then
    { status := .CANCELLED
      reports := [(.ERROR, "FBX conversion failed: file not found")]
      scriptFileCreated := true, scriptFileRemoved := false
      fbxRemoveAttempted := false, finalScene := scenePost }
  else if env.fbxBlockRaises then
    { status := .CANCELLED
      reports := [(.ERROR, "FBX import failed.")]
      scriptFileCreated := true, scriptFileRemoved := false
      fbxRemoveAttempted := false, finalScene := scenePost }
  else
    { status := .FINISHED
      reports := [(.INFO, "Successfully imported 3ds Max file")]
      scriptFileCreated := true, scriptFileRemoved := false
      fbxRemoveAttempted := true
      finalScene := (runFilterPipeline scenePost batch c).scene }

/-- Outcomes of the external-world steps of one `ExportMax.export_max`
invocation, supplied as an oracle. -/
structure ExportEnv where
  maxPythonOk : Bool
  anyObjectSelected : Bool
  fbxExportRaises : Bool
  fbxFileOk : Bool
  scriptRunRaises : Bool
  scriptReturncode : Nat
deriving DecidableEq

/-- Observable outcome of one `ExportMax.export_max` invocation.
`tempDirCreated`/`tempDirRemoved` model the
`with tempfile.TemporaryDirectory(...)` block (lines 342-480) that holds
both the intermediate FBX and the generated export script: Python removes
the directory and its contents on every exit from the `with` block. -/
structure ExportRun where
  status : OpStatus
  reports : List (ReportLevel × String)
  tempDirCreated : Bool
  tempDirRemoved : Bool
deriving DecidableEq

/-- `ExportMax.export_max` (lines 333-484) as a function of the external
outcomes.  Every path that creates the temporary directory leaves it
through the context manager, which removes it together with the FBX file
and the generated script inside it. -/
def runExportOperation (env : ExportEnv) : ExportRun :=
  if !env.maxPythonOk then
    { status := .CANCELLED
      reports := [(.ERROR, "3ds Max Python executable path not set or invalid. Check Addon Preferences.")]
      tempDirCreated := false, tempDirRemoved := false }
  else if !env.anyObjectSelected then
    { status := .CANCELLED
      reports := [(.WARNING, "No objects match export filters. Nothing exported to FBX.")]
      tempDirCreated := true, tempDirRemoved := true }
  else if env.fbxExportRaises || !env.fbxFileOk then
    { status := .CANCELLED
      reports := [(.ERROR, "FBX export from Blender failed.")]
      tempDirCreated := true, tempDirRemoved := true }
  else if env.scriptRunRaises then
    { status := .CANCELLED
      reports := [(.ERROR, "Failed to run 3ds Max script.")]
      tempDirCreated := true, tempDirRemoved := true }
  else if env.scriptReturncode != 0 then
    { status := .CANCELLED
      reports := [(.ERROR, "3ds Max script execution failed.")]
      tempDirCreated := true, tempDirRemoved := true }
  else
    { status := .FINISHED
      reports := [(.INFO, "Exported successfully.")]
      tempDirCreated := true, tempDirRemoved := true }

/-! ### Generic lemmas about name-indexed scene-object lists -/

theorem find_map_namePres (f : SceneObject → SceneObject)
    (hf : ∀ o, (f o).name = o.name) (l : List SceneObject) (n : String) :
    (l.map f).find? (fun o => o.name == n) = (l.find? (fun o => o.name == n)).map f := by
  induction l with
  | nil => rfl
  | cons a t ih =>
    cases h : (a.name == n) with
    | true => simp [List.find?_cons, hf, h]
    | false => simp [List.find?_cons, hf, h, ih]

theorem find_self_of_nodup {l : List SceneObject}
    (h : (l.map SceneObject.name).Nodup) {o : SceneObject} (ho : o ∈ l) :
    l.find? (fun x => x.name == o.name) = some o := by
  induction l with
  | nil => cases ho
  | cons a t ih =>
    simp only [List.map_cons, List.nodup_cons] at h
    rcases List.mem_cons.mp ho with rfl | hmem
    · simp [List.find?_cons]
    · have hne : (a.name == o.name) = false := by
        rw [beq_eq_false_iff_ne]
        intro he
        exact h.1 (he ▸ List.mem_map_of_mem SceneObject.name hmem)
      simp [List.find?_cons, hne, ih h.2 hmem]

theorem find_filter_of_nodup {l : List SceneObject}
    (h : (l.map SceneObject.name).Nodup) (q : SceneObject → Bool) (n : String) :
    (l.filter q).find? (fun o => o.name == n)
      = match l.find? (fun o => o.name == n) with
        | some o => if q o then some o else none
        | none => none := by
  induction l with
  | nil => rfl
  | cons a t ih =>
    simp only [List.map_cons, List.nodup_cons] at h
    cases ha : (a.name == n) with
    | false =>
      cases hq : q a <;>
        simp [List.filter_cons, hq, List.find?_cons, ha, ih h.2]
    | true =>
      have han : a.name = n := eq_of_beq ha
      have hnone : t.find? (fun o => o.name == n) = none := by
        rw [List.find?_eq_none]
        intro x hx hbeq
        exact h.1 (by
          rw [han, ← eq_of_beq hbeq]
          exact List.mem_map_of_mem SceneObject.name hx)
      cases hq : q a
      · simp [List.filter_cons, hq, List.find?_cons, ha, ih h.2, hnone]
      · simp [List.filter_cons, hq, List.find?_cons, ha]

theorem nodup_map_namePres {l : List SceneObject} (f : SceneObject → SceneObject)
    (hf : ∀ o, (f o).name = o.name) (h : (l.map SceneObject.name).Nodup) :
    ((l.map f).map SceneObject.name).Nodup := by
  have he : ((l.map f).map SceneObject.name) = l.map SceneObject.name := by
    rw [List.map_map]
    have : (SceneObject.name ∘ f) = SceneObject.name := funext fun o => hf o
    rw [this]
  rw [he]; exact h

theorem nodup_filter {l : List SceneObject} (q : SceneObject → Bool)
    (h : (l.map SceneObject.name).Nodup) :
    ((l.filter q).map SceneObject.name).Nodup :=
  ((l.filter_sublist).map SceneObject.name).nodup h

/-! ### Characterisation of the transform stage -/

/-- Proof device: the combined per-object effect of the two
corrective-transform loops of lines 731-741. -/
def tfObj (c : ImportConfig) (batch : List String) (o : SceneObject) : SceneObject :=
  if batch.contains o.name then
    { o with
      rotX := if c.apply_rotation then rot180 else o.rotX
      scaleX := if c.apply_scale then scale001 else o.scaleX
      scaleY := if c.apply_scale then scale001 else o.scaleY
      scaleZ := if c.apply_scale then scale001 else o.scaleZ }
  else o

theorem tfObj_name (c : ImportConfig) (batch : List String) (o : SceneObject) :
    (tfObj c batch o).name = o.name := by
  unfold tfObj; split <;> rfl

theorem tfObj_type (c : ImportConfig) (batch : List String) (o : SceneObject) :
    (tfObj c batch o).type = o.type := by
  unfold tfObj; split <;> rfl

theorem applyRotationStep_findName (s : Scene) (batch : List String) (n : String) :
    (applyRotationStep s batch).findName n
      = (s.findName n).map
          (fun o => if batch.contains o.name then { o with rotX := rot180 } else o) := by
  unfold applyRotationStep Scene.findName
  exact find_map_namePres _ (fun o => by split <;> rfl) s.objs n

theorem applyScaleStep_findName (s : Scene) (batch : List String) (n : String) :
    (applyScaleStep s batch).findName n
      = (s.findName n).map
          (fun o => if batch.contains o.name then
            { o with scaleX := scale001, scaleY := scale001, scaleZ := scale001 }
          else o) := by
  unfold applyScaleStep Scene.findName
  exact find_map_namePres _ (fun o => by split <;> rfl) s.objs n

theorem transformStage_findName (s : Scene) (batch : List String) (c : ImportConfig)
    (n : String) :
    (transformStage s batch c).findName n = (s.findName n).map (tfObj c batch) := by
  unfold transformStage
  cases hr : c.apply_rotation with
  | false =>
    cases hs : c.apply_scale with
    | false =>
      simp only [Bool.false_eq_true, if_false]
      cases hfn : s.findName n with
      | none => simp [hfn]
      | some o =>
        simp only [hfn, Option.map_some']
        have : tfObj c batch o = o := by
          simp [tfObj, hr, hs]
        rw [this]
    | true =>
      simp only [Bool.false_eq_true, if_false, if_true]
      rw [applyScaleStep_findName]
      cases hfn : s.findName n with
      | none => simp [hfn]
      | some o =>
        simp only [hfn, Option.map_some']
        by_cases hb : o.name ∈ batch
        · simp [tfObj, hb, hr, hs]
        · simp [tfObj, hb, hr, hs]
  | true =>
    cases hs : c.apply_scale with
    | false =>
      simp only [Bool.false_eq_true, if_false, if_true]
      rw [applyRotationStep_findName]
      cases hfn : s.findName n with
      | none => simp [hfn]
      | some o =>
        simp only [hfn, Option.map_some']
        by_cases hb : o.name ∈ batch
        · simp [tfObj, hb, hr, hs]
        · simp [tfObj, hb, hr, hs]
    | true =>
      simp only [if_true]
      rw [applyScaleStep_findName, applyRotationStep_findName]
      cases hfn : s.findName n with
      | none => simp [hfn]
      | some o =>
        simp only [hfn, Option.map_some']
        by_cases hb : o.name ∈ batch
        · simp [tfObj, hb, hr, hs]
        · simp [tfObj, hb, hr, hs]

theorem transformStage_nodup (s : Scene) (batch : List String) (c : ImportConfig)
    (h : namesNodup s) : namesNodup (transformStage s batch c) := by
  unfold transformStage namesNodup applyRotationStep applyScaleStep
  cases hr : c.apply_rotation <;> cases hs : c.apply_scale <;>
    simp only [Bool.false_eq_true, if_false, if_true] <;>
    first
    | exact h
    | exact nodup_map_namePres _ (fun o => by split <;> rfl) h
    | exact nodup_map_namePres _ (fun o => by split <;> rfl)
        (nodup_map_namePres _ (fun o => by split <;> rfl) h)

theorem prepSelect_findName (s : Scene) (batch : List String) (n : String) :
    (prepSelect s batch).findName n = s.findName n := rfl

theorem deselectAll_findName (s : Scene) (n : String) :
    s.deselectAll.findName n = s.findName n := rfl

/-! ### Characterisation of the category-deletion stage -/

/-- Proof device: the `targeted_objects` set computed by
`_filter_objects_by_type` (existing objects of the checked set whose type
matches). -/
def targetedOf (s : Scene) (batch : List String) (t : ObjType) : List String :=
  batch.filter (fun n =>
    match s.findName n with
    | some o => o.type == t
    | none => false)

theorem contains_filter (l : List String) (p : String → Bool) (n : String) :
    (l.filter p).contains n = (l.contains n && p n) := by
  rw [Bool.eq_iff_iff]
  simp [List.mem_filter]

theorem targetedOf_contains (s : Scene) (batch : List String) (t : ObjType)
    (n : String) :
    (targetedOf s batch t).contains n
      = (batch.contains n && (match s.findName n with
          | some o => o.type == t
          | none => false)) :=
  contains_filter batch _ n

theorem delStage_objs (s : Scene) (batch : List String) (t : ObjType) :
    (delStage s batch t true).1.objs
      = s.objs.filter (fun o => !((targetedOf s batch t).contains o.name)) := by
  unfold delStage filterObjectsByType targetedOf Scene.deselectAll Scene.findName
  by_cases he : (batch.filter (fun n =>
      match s.objs.find? (fun o => o.name == n) with
      | some o => o.type == t
      | none => false)).isEmpty = true
  · have hnil := List.isEmpty_iff.mp he
    simp [if_true, he, hnil]
  · have hne : (batch.filter (fun n =>
        match s.objs.find? (fun o => o.name == n) with
        | some o => o.type == t
        | none => false)).isEmpty = false := by
      simpa using he
    simp [if_true, hne]

theorem delStage_snd (s : Scene) (batch : List String) (t : ObjType) (f : Bool) :
    (delStage s batch t f).2 = if f then targetedOf s batch t else [] := by
  cases f with
  | false => rfl
  | true =>
    unfold delStage filterObjectsByType targetedOf Scene.deselectAll Scene.findName
    simp only [if_true]
    split <;> rfl

theorem delStage_nodup (s : Scene) (batch : List String) (t : ObjType) (f : Bool)
    (h : namesNodup s) : namesNodup (delStage s batch t f).1 := by
  cases f with
  | false => simpa [delStage] using h
  | true =>
    unfold namesNodup
    rw [delStage_objs]
    exact nodup_filter _ h

/-- Proof device: per-name effect of one conditional category deletion. -/
def delStep (batch : List String) (t : ObjType) (f : Bool) (n : String) :
    Option SceneObject → Option SceneObject
  | some o => if f && batch.contains n && (o.type == t) then none else some o
  | none => none

theorem delStage_findName (s : Scene) (batch : List String) (t : ObjType) (f : Bool)
    (h : namesNodup s) (n : String) :
    (delStage s batch t f).1.findName n = delStep batch t f n (s.findName n) := by
  cases f with
  | false =>
    cases hfn : s.findName n <;> simp [delStage, delStep, hfn]
  | true =>
    have hstep : (delStage s batch t true).1.findName n
        = (s.objs.filter (fun o => !((targetedOf s batch t).contains o.name))).find?
            (fun o => o.name == n) := by
      unfold Scene.findName
      rw [delStage_objs]
    rw [hstep, find_filter_of_nodup h]
    cases hfn : s.objs.find? (fun o => o.name == n) with
    | none =>
      have hfn' : s.findName n = none := hfn
      simp [delStep, hfn']
    | some o =>
      have hbeq := List.find?_some hfn
      have hon : o.name = n := eq_of_beq hbeq
      have hfn' : s.findName n = some o := hfn
      simp only [delStep, hfn', hon, targetedOf_contains]
      cases hb : batch.contains n with
      | false => simp
      | true =>
        cases ht : (o.type == t) with
        | false => simp [ht]
        | true => simp [ht]

/-! ### Characterisation of the strip stages and the composed category stage -/

theorem clearAnimationsStep_findName (s : Scene) (names : List String) (n : String) :
    (clearAnimationsStep s names).findName n
      = (s.findName n).map (fun o =>
          if names.contains o.name && o.animData then { o with animData := false }
          else o) := by
  unfold clearAnimationsStep Scene.findName
  exact find_map_namePres _ (fun o => by split <;> rfl) s.objs n

theorem clearMaterialsStep_findName (s : Scene) (names : List String) (n : String) :
    (clearMaterialsStep s names).findName n
      = (s.findName n).map (fun o =>
          if names.contains o.name then
            match o.matSlots with
            | some (_ :: _) => { o with matSlots := some [] }
            | _ => o
          else o) := by
  unfold clearMaterialsStep Scene.findName
  refine find_map_namePres _ (fun o => ?_) s.objs n
  dsimp only
  split
  · split <;> rfl
  · rfl

theorem mem_targetedOf (s : Scene) (batch : List String) (t : ObjType) (n : String) :
    n ∈ targetedOf s batch t ↔ n ∈ batch ∧ ∃ o, s.findName n = some o ∧ o.type = t := by
  unfold targetedOf
  rw [List.mem_filter]
  constructor
  · rintro ⟨hb, hp⟩
    refine ⟨hb, ?_⟩
    cases hfn : s.findName n with
    | none => rw [hfn] at hp; cases hp
    | some o =>
      rw [hfn] at hp
      exact ⟨o, rfl, by simpa using hp⟩
  · rintro ⟨hb, o, hfn, ht⟩
    refine ⟨hb, ?_⟩
    rw [hfn]
    simpa using ht

theorem catStage_findName (s : Scene) (batch : List String) (c : ImportConfig)
    (h : namesNodup s) (n : String) :
    (catStage s batch c).1.findName n
      = delStep batch .ARMATURE (!c.import_armatures) n
          (delStep batch .CURVE (!c.import_splines) n
            (delStep batch .CAMERA (!c.import_cameras) n
              (delStep batch .LIGHT (!c.import_lights) n
                (delStep batch .MESH (!c.import_models) n (s.findName n))))) := by
  have h1 := delStage_nodup s batch .MESH (!c.import_models) h
  have h2 := delStage_nodup _ batch .LIGHT (!c.import_lights) h1
  have h3 := delStage_nodup _ batch .CAMERA (!c.import_cameras) h2
  have h4 := delStage_nodup _ batch .CURVE (!c.import_splines) h3
  simp only [catStage]
  rw [delStage_findName _ _ _ _ h4, delStage_findName _ _ _ _ h3,
    delStage_findName _ _ _ _ h2, delStage_findName _ _ _ _ h1,
    delStage_findName _ _ _ _ h]

theorem catStage_nodup (s : Scene) (batch : List String) (c : ImportConfig)
    (h : namesNodup s) : namesNodup (catStage s batch c).1 := by
  simp only [catStage]
  exact delStage_nodup _ _ _ _ (delStage_nodup _ _ _ _ (delStage_nodup _ _ _ _
    (delStage_nodup _ _ _ _ (delStage_nodup _ _ _ _ h))))

theorem delSteps_chain (c : ImportConfig) (batch : List String) (n : String)
    (x : SceneObject) (hbc : batch.contains n = true) :
    delStep batch .ARMATURE (!c.import_armatures) n
      (delStep batch .CURVE (!c.import_splines) n
        (delStep batch .CAMERA (!c.import_cameras) n
          (delStep batch .LIGHT (!c.import_lights) n
            (delStep batch .MESH (!c.import_models) n (some x)))))
      = if deletedCategory c x.type then none else some x := by
  have hbn : n ∈ batch := by simpa using hbc
  cases hot : x.type <;>
    [cases hm : c.import_models; cases hm : c.import_lights; cases hm : c.import_cameras;
     cases hm : c.import_splines; cases hm : c.import_armatures;
     have hm : (true : Bool) = true := rfl; have hm : (true : Bool) = true := rfl] <;>
    simp [delStep, deletedCategory, hbc, hbn, hot, hm]

theorem delSteps_chain_notBatch (c : ImportConfig) (batch : List String) (n : String)
    (x : SceneObject) (hbc : batch.contains n = false) :
    delStep batch .ARMATURE (!c.import_armatures) n
      (delStep batch .CURVE (!c.import_splines) n
        (delStep batch .CAMERA (!c.import_cameras) n
          (delStep batch .LIGHT (!c.import_lights) n
            (delStep batch .MESH (!c.import_models) n (some x)))))
      = some x := by
  have hbn : ¬ (n ∈ batch) := by simpa using hbc
  simp [delStep, hbc, hbn]

theorem catStage_removed_mem (s : Scene) (batch : List String) (c : ImportConfig)
    (h : namesNodup s) (n : String) :
    n ∈ (catStage s batch c).2
      ↔ n ∈ batch ∧ ∃ o, s.findName n = some o ∧ deletedCategory c o.type = true := by
  have h1 := delStage_nodup s batch .MESH (!c.import_models) h
  have h2 := delStage_nodup _ batch .LIGHT (!c.import_lights) h1
  have h3 := delStage_nodup _ batch .CAMERA (!c.import_cameras) h2
  have f1 := delStage_findName s batch .MESH (!c.import_models) h
  have f2 := delStage_findName _ batch .LIGHT (!c.import_lights) h1
  have f3 := delStage_findName _ batch .CAMERA (!c.import_cameras) h2
  have f4 := delStage_findName _ batch .CURVE (!c.import_splines) h3
  cases hfn : s.findName n with
  | none =>
    simp [catStage, List.mem_append, delStage_snd, mem_targetedOf,
      f1, f2, f3, f4, delStep, hfn]
  | some o =>
    by_cases hbn : n ∈ batch
    · have hbc : batch.contains n = true := by simpa using hbn
      simp [catStage, List.mem_append, delStage_snd, mem_targetedOf,
        f4, f3, f2, f1, hfn, delStep, hbn, hbc]
      cases hot : o.type <;>
        [cases hm : c.import_models; cases hm : c.import_lights; cases hm : c.import_cameras;
         cases hm : c.import_splines; cases hm : c.import_armatures;
         have hm : (true : Bool) = true := rfl; have hm : (true : Bool) = true := rfl] <;>
        simp [delStep, hot, hbn, deletedCategory, hm]
    · simp [catStage, List.mem_append, delStage_snd, mem_targetedOf, hbn]

theorem tfObj_animData (c : ImportConfig) (batch : List String) (o : SceneObject) :
    (tfObj c batch o).animData = o.animData := by
  unfold tfObj; split <;> rfl

theorem tfObj_matSlots (c : ImportConfig) (batch : List String) (o : SceneObject) :
    (tfObj c batch o).matSlots = o.matSlots := by
  unfold tfObj; split <;> rfl

theorem clearAnimationsStep_nodup (s : Scene) (names : List String)
    (h : namesNodup s) : namesNodup (clearAnimationsStep s names) :=
  nodup_map_namePres _ (fun o => by split <;> rfl) h

theorem clearMaterialsStep_nodup (s : Scene) (names : List String)
    (h : namesNodup s) : namesNodup (clearMaterialsStep s names) :=
  nodup_map_namePres _ (fun o => by
    split
    · split <;> rfl
    · rfl) h

theorem stripStage_nodup (s : Scene) (rem : List String) (c : ImportConfig)
    (h : namesNodup s) : namesNodup (stripStage s rem c) := by
  simp only [stripStage]
  split <;> split <;>
    first
    | exact h
    | exact clearMaterialsStep_nodup _ _ h
    | exact clearAnimationsStep_nodup _ _ h
    | exact clearMaterialsStep_nodup _ _ (clearAnimationsStep_nodup _ _ h)

theorem stripStage_findName (s : Scene) (rem : List String) (c : ImportConfig)
    (n : String) :
    (stripStage s rem c).findName n
      = ((s.findName n).map (fun o =>
          if (!c.import_animations && !rem.isEmpty) && (rem.contains o.name && o.animData)
          then { o with animData := false } else o)).map (fun o =>
          if (!c.import_materials && !rem.isEmpty) && rem.contains o.name then
            match o.matSlots with
            | some (_ :: _) => { o with matSlots := some [] }
            | _ => o
          else o) := by
  simp only [stripStage]
  cases hA : (!c.import_animations && !rem.isEmpty) <;>
    cases hB : (!c.import_materials && !rem.isEmpty) <;>
    simp only [hA, hB, Bool.false_eq_true, if_false, if_true] <;>
    (try rw [clearMaterialsStep_findName]) <;>
    (try rw [clearAnimationsStep_findName]) <;>
    (cases hfn : s.findName n <;> simp [hfn, hA, hB])

theorem containsName_eq_isSome (s : Scene) (n : String) :
    s.containsName n = (s.findName n).isSome := by
  unfold Scene.containsName Scene.findName
  induction s.objs with
  | nil => rfl
  | cons a t ih => cases h : (a.name == n) <;> simp [List.find?_cons, h, ih]

theorem runFilterPipeline_selected (s : Scene) (batch : List String)
    (c : ImportConfig) : (runFilterPipeline s batch c).scene.selected = [] := by
  unfold runFilterPipeline
  split <;> rfl

theorem runFilterPipeline_nodup (s : Scene) (batch : List String) (c : ImportConfig)
    (h : namesNodup s) : namesNodup (runFilterPipeline s batch c).scene := by
  unfold runFilterPipeline
  split
  · exact h
  · exact stripStage_nodup _ _ _ (catStage_nodup _ _ _ (transformStage_nodup _ _ _ h))

/-- Master characterisation of the pipeline, per object name: a batch
object is deleted exactly when its category flag is off, and otherwise
ends up as `finalizeObj` of its post-import state; objects outside the
batch are untouched. -/
theorem runFilterPipeline_findName (s : Scene) (batch : List String)
    (c : ImportConfig) (h : namesNodup s) (n : String) :
    (runFilterPipeline s batch c).scene.findName n
      = match s.findName n with
        | some o =>
          if n ∈ batch then
            (if deletedCategory c o.type then none else some (finalizeObj c o))
          else some o
        | none => none := by
  cases hbe : batch.isEmpty with
  | true =>
    have hb : batch = [] := List.isEmpty_iff.mp hbe
    subst hb
    have hrfl : (runFilterPipeline s [] c).scene.findName n = s.findName n := rfl
    rw [hrfl]
    cases hfn : s.findName n <;> simp [hfn]
  | false =>
    have hnd2 : namesNodup ((transformStage (prepSelect s batch) batch c).deselectAll) :=
      transformStage_nodup _ _ _ h
    have hcatf := catStage_findName
      ((transformStage (prepSelect s batch) batch c).deselectAll) batch c hnd2
    have hcatm := catStage_removed_mem
      ((transformStage (prepSelect s batch) batch c).deselectAll) batch c hnd2
    have htf : ∀ m, ((transformStage (prepSelect s batch) batch c).deselectAll).findName m
        = (s.findName m).map (tfObj c batch) := fun m =>
      transformStage_findName (prepSelect s batch) batch c m
    have hscene : (runFilterPipeline s batch c).scene
        = (stripStage (catStage ((transformStage (prepSelect s batch) batch c).deselectAll) batch c).1
            (batch.filter (fun m =>
              !((catStage ((transformStage (prepSelect s batch) batch c).deselectAll) batch c).2.contains m)))
            c).deselectAll := by
      simp only [runFilterPipeline, hbe, Bool.false_eq_true, if_false]
    rw [hscene, deselectAll_findName, stripStage_findName, hcatf n, htf n]
    cases hfn : s.findName n with
    | none => simp [delStep]
    | some o =>
      have hfn' : s.objs.find? (fun o => o.name == n) = some o := hfn
      have hbeq := List.find?_some hfn'
      have hon : o.name = n := eq_of_beq hbeq
      by_cases hbn : n ∈ batch
      · have hbc : batch.contains n = true := by simpa using hbn
        simp only [Option.map_some']
        have hchain := delSteps_chain c batch n (tfObj c batch o) hbc
        have htype : deletedCategory c (tfObj c batch o).type = deletedCategory c o.type := by
          rw [tfObj_type]
        rw [hchain, htype]
        cases hdel : deletedCategory c o.type with
        | true => simp [hbn]
        | false =>
          simp only [Bool.false_eq_true, if_false, Option.map_some']
          -- the object survives; it is in `remaining`
          have hnotrem : ¬ (n ∈ (catStage ((transformStage (prepSelect s batch) batch c).deselectAll) batch c).2) := by
            rw [hcatm n]
            rintro ⟨-, o', ho', hdel'⟩
            rw [htf n, hfn] at ho'
            simp only [Option.map_some', Option.some.injEq] at ho'
            rw [← ho', tfObj_type, hdel] at hdel'
            cases hdel'
          have hcontf : ((catStage ((transformStage (prepSelect s batch) batch c).deselectAll) batch c).2.contains n) = false := by
            simpa using hnotrem
          have hremc : (batch.filter (fun m =>
              !((catStage ((transformStage (prepSelect s batch) batch c).deselectAll) batch c).2.contains m))).contains n = true := by
            rw [contains_filter, hbc, hcontf]
            rfl
          have hmemR : n ∈ (batch.filter (fun m =>
              !((catStage ((transformStage (prepSelect s batch) batch c).deselectAll) batch c).2.contains m))) := by
            simpa using hremc
          have hremne : (batch.filter (fun m =>
              !((catStage ((transformStage (prepSelect s batch) batch c).deselectAll) batch c).2.contains m))).isEmpty = false := by
            cases hE : (batch.filter (fun m =>
                !((catStage ((transformStage (prepSelect s batch) batch c).deselectAll) batch c).2.contains m))).isEmpty
            · rfl
            · exact absurd (List.isEmpty_iff.mp hE) (List.ne_nil_of_mem hmemR)
          have hex : ∃ x ∈ batch,
              ¬ x ∈ (catStage ((transformStage (prepSelect s batch) batch c).deselectAll) batch c).2 :=
            ⟨n, hbn, hnotrem⟩
          simp only [hbn, if_true]
          obtain ⟨onm, ot, oa, om, orx, osx, osy, osz⟩ := o
          simp only [SceneObject.name] at hon
          subst hon
          cases ha : c.import_animations <;> cases hmm : c.import_materials <;>
            cases oa <;> rcases om with - | ⟨- | ⟨m, ms⟩⟩ <;>
            simp [tfObj, finalizeObj, clearedSlots, hbn, hbc, hnotrem, hex,
              hremne, hremc, hmemR, ha, hmm]
      · have hbc : batch.contains n = false := by simpa using hbn
        simp only [Option.map_some']
        rw [delSteps_chain_notBatch c batch n (tfObj c batch o) hbc]
        have htfo : tfObj c batch o = o := by
          rw [tfObj, hon, hbc]
          simp
        rw [htfo]
        have hremcF : (batch.filter (fun m =>
            !((catStage ((transformStage (prepSelect s batch) batch c).deselectAll) batch c).2.contains m))).contains o.name = false := by
          rw [hon, contains_filter, hbc]
          rfl
        have hnm : ¬ (o.name ∈ (batch.filter (fun m =>
            !((catStage ((transformStage (prepSelect s batch) batch c).deselectAll) batch c).2.contains m)))) := by
          simpa using hremcF
        have hobn : ¬ (o.name ∈ batch) := by
          rw [hon]; exact hbn
        simp [hbn, hremcF, hnm, hobn]

/-- Master characterisation of `processed_for_deletion`: a name is removed
exactly when it is a batch member whose object carries a category whose
flag is off. -/
theorem runFilterPipeline_removed_mem (s : Scene) (batch : List String)
    (c : ImportConfig) (h : namesNodup s) (n : String) :
    n ∈ (runFilterPipeline s batch c).removed
      ↔ n ∈ batch ∧ ∃ o, s.findName n = some o ∧ deletedCategory c o.type = true := by
  cases hbe : batch.isEmpty with
  | true =>
    have hb : batch = [] := List.isEmpty_iff.mp hbe
    subst hb
    simp [runFilterPipeline]
  | false =>
    have hnd2 : namesNodup ((transformStage (prepSelect s batch) batch c).deselectAll) :=
      transformStage_nodup _ _ _ h
    have hcatm := catStage_removed_mem
      ((transformStage (prepSelect s batch) batch c).deselectAll) batch c hnd2
    have htf : ∀ m, ((transformStage (prepSelect s batch) batch c).deselectAll).findName m
        = (s.findName m).map (tfObj c batch) := fun m =>
      transformStage_findName (prepSelect s batch) batch c m
    have hrem : (runFilterPipeline s batch c).removed
        = (catStage ((transformStage (prepSelect s batch) batch c).deselectAll) batch c).2 := by
      simp only [runFilterPipeline, hbe, Bool.false_eq_true, if_false]
    rw [hrem, hcatm n]
    constructor
    · rintro ⟨hbn, o', ho', hdel⟩
      rw [htf n] at ho'
      cases hfn : s.findName n with
      | none => rw [hfn] at ho'; cases ho'
      | some o =>
        rw [hfn] at ho'
        simp only [Option.map_some', Option.some.injEq] at ho'
        refine ⟨hbn, o, rfl, ?_⟩
        rw [← ho', tfObj_type] at hdel
        exact hdel
    · rintro ⟨hbn, o, hfn, hdel⟩
      refine ⟨hbn, tfObj c batch o, ?_, ?_⟩
      · rw [htf n, hfn]
        rfl
      · rw [tfObj_type]
        exact hdel

/-- The armature special-case log line is emitted whenever the batch is
nonempty, armatures are retained, models are not, and animations are. -/
theorem runFilterPipeline_log_arm (s : Scene) (batch : List String)
    (c : ImportConfig) (hbe : batch.isEmpty = false)
    (har : c.import_armatures = true) (hm : c.import_models = false)
    (han : c.import_animations = true) :
    msgArmatureKept ∈ (runFilterPipeline s batch c).log := by
  simp [runFilterPipeline, hbe, har, hm, han]

theorem mem_survivorsOf (out : PipelineOut) (batch : List String) (n : String) :
    n ∈ survivorsOf out batch ↔ n ∈ batch ∧ out.scene.containsName n = true := by
  unfold survivorsOf
  rw [List.mem_filter]

theorem map_id_of_fix {l : List SceneObject} {f : SceneObject → SceneObject}
    (h : ∀ o ∈ l, f o = o) : l.map f = l := by
  induction l with
  | nil => rfl
  | cons a t ih =>
    rw [List.map_cons, h a (by simp), ih fun o ho => h o (by simp [ho])]

theorem update_rotX_self (o : SceneObject) (h : o.rotX = rot180) :
    ({ o with rotX := rot180 } : SceneObject) = o := by
  cases o with
  | mk a b d e f g i j =>
    simp only at h
    subst h
    rfl

theorem update_scale_self (o : SceneObject) (hx : o.scaleX = scale001)
    (hy : o.scaleY = scale001) (hz : o.scaleZ = scale001) :
    ({ o with scaleX := scale001, scaleY := scale001, scaleZ := scale001 } : SceneObject) = o := by
  cases o with
  | mk a b d e f g i j =>
    simp only at hx hy hz
    subst hx
    subst hy
    subst hz
    rfl

theorem finalizeObj_type (c : ImportConfig) (o : SceneObject) :
    (finalizeObj c o).type = o.type := rfl

theorem finalizeObj_name (c : ImportConfig) (o : SceneObject) :
    (finalizeObj c o).name = o.name := rfl

theorem clearedSlots_idem (x : Option (List String)) :
    clearedSlots (clearedSlots x) = clearedSlots x := by
  rcases x with - | ⟨- | ⟨m, ms⟩⟩ <;> rfl

theorem finalizeObj_idem (c : ImportConfig) (o : SceneObject) :
    finalizeObj c (finalizeObj c o) = finalizeObj c o := by
  cases hr : c.apply_rotation <;> cases hsc : c.apply_scale <;>
    cases ha : c.import_animations <;> cases hmm : c.import_materials <;>
    simp [finalizeObj, hr, hsc, ha, hmm, clearedSlots_idem]

/-! ### Concrete fixtures for witnesses and counterexamples -/

def oMeshA : SceneObject :=
  { name := "A", type := .MESH, animData := true, matSlots := some ["matA"],
    rotX := 0, scaleX := 1, scaleY := 1, scaleZ := 1 }

def oLightB : SceneObject :=
  { name := "B", type := .LIGHT, animData := true, matSlots := none,
    rotX := 0, scaleX := 1, scaleY := 1, scaleZ := 1 }

def oCamC : SceneObject :=
  { name := "C", type := .CAMERA, animData := false, matSlots := none,
    rotX := 0, scaleX := 1, scaleY := 1, scaleZ := 1 }

def oArmD : SceneObject :=
  { name := "D", type := .ARMATURE, animData := true, matSlots := none,
    rotX := 0, scaleX := 1, scaleY := 1, scaleZ := 1 }

def sceneEx : Scene :=
  { objs := [oMeshA, oLightB, oCamC, oArmD], selected := [] }

def batchEx : List String := ["A", "B", "C", "D"]

/-- All nine operator flags true. -/
def cfgAllOn : ImportConfig :=
  { import_models := true, import_lights := true, import_cameras := true,
    import_splines := true, import_animations := true, import_materials := true,
    import_armatures := true, apply_rotation := true, apply_scale := true }

/-- Lights, animations and materials off; corrective rotation on. -/
def cfgStrip : ImportConfig :=
  { import_models := true, import_lights := false, import_cameras := true,
    import_splines := true, import_animations := false, import_materials := false,
    import_armatures := true, apply_rotation := true, apply_scale := false }

/-- Armature special case: models off, animations on, armatures on. -/
def cfgArmSpecial : ImportConfig :=
  { import_models := false, import_lights := true, import_cameras := true,
    import_splines := true, import_animations := true, import_materials := true,
    import_armatures := true, apply_rotation := false, apply_scale := false }

/-! ### Claim theorems -/

/-- C1: after the filter pipeline completes, every object of the Import
Batch is either removed from the scene entirely (recorded in `removed`,
exactly when its category flag is off), or present as `finalizeObj` of its
imported state: animation data cleared exactly when animations are not
retained, material slots cleared exactly when materials are not retained,
rotation and scale overwritten exactly when the corrective flags are set,
and name, type and all retained data intact — so no kept object loses
data whose retention flag is true. -/
theorem c1_batch_invariant (s : Scene) (batch : List String) (c : ImportConfig)
    (h : namesNodup s) (n : String) (hn : n ∈ batch) (o : SceneObject)
    (ho : s.findName n = some o) :
    (deletedCategory c o.type = true
        ∧ (runFilterPipeline s batch c).scene.findName n = none
        ∧ n ∈ (runFilterPipeline s batch c).removed)
    ∨ (deletedCategory c o.type = false
        ∧ (runFilterPipeline s batch c).scene.findName n = some (finalizeObj c o)) := by
  have hm := runFilterPipeline_findName s batch c h n
  rw [ho] at hm
  cases hdel : deletedCategory c o.type with
  | true =>
    left
    refine ⟨rfl, ?_, ?_⟩
    · rw [hm]
      simp [hn, hdel]
    · exact (runFilterPipeline_removed_mem s batch c h n).mpr ⟨hn, o, ho, hdel⟩
  | false =>
    right
    exact ⟨rfl, by rw [hm]; simp [hn, hdel]⟩

/-- Witness for C1: in the example scene with lights/animations/materials
off, the light is in the removed branch of the invariant. -/
theorem c1_batch_invariant_witness :
    namesNodup sceneEx ∧ "B" ∈ batchEx ∧ sceneEx.findName "B" = some oLightB
    ∧ ((deletedCategory cfgStrip oLightB.type = true
          ∧ (runFilterPipeline sceneEx batchEx cfgStrip).scene.findName "B" = none
          ∧ "B" ∈ (runFilterPipeline sceneEx batchEx cfgStrip).removed)
      ∨ (deletedCategory cfgStrip oLightB.type = false
          ∧ (runFilterPipeline sceneEx batchEx cfgStrip).scene.findName "B"
              = some (finalizeObj cfgStrip oLightB))) :=
  ⟨by decide, by decide, by decide,
    c1_batch_invariant sceneEx batchEx cfgStrip (by decide) "B" (by decide)
      oLightB (by decide)⟩

/-- C3: when a category flag (Mesh, Light, Camera, Curve, Armature) is
false, exactly the batch objects of that category are deleted and recorded
in `removed`, and no object of another category is deleted; when Armatures
are retained, Models are not, and Animations are retained, armatures are
kept and the decision is logged. -/
theorem c3_category_filter (s : Scene) (batch : List String) (c : ImportConfig)
    (h : namesNodup s) (n : String) (hn : n ∈ batch) (o : SceneObject)
    (ho : s.findName n = some o) :
    (n ∈ (runFilterPipeline s batch c).removed ↔ deletedCategory c o.type = true)
    ∧ (c.import_armatures = true → c.import_models = false →
       c.import_animations = true → o.type = .ARMATURE →
         ¬ n ∈ (runFilterPipeline s batch c).removed
         ∧ (runFilterPipeline s batch c).scene.containsName n = true
         ∧ msgArmatureKept ∈ (runFilterPipeline s batch c).log) := by
  have hmem := runFilterPipeline_removed_mem s batch c h n
  constructor
  · rw [hmem]
    constructor
    · rintro ⟨-, o', ho', hdel⟩
      rw [ho] at ho'
      injection ho' with ho''
      rw [← ho''] at hdel
      exact hdel
    · intro hdel
      exact ⟨hn, o, ho, hdel⟩
  · intro har hm han hty
    have hdel : deletedCategory c o.type = false := by
      rw [hty]
      simp [deletedCategory, har]
    refine ⟨?_, ?_, ?_⟩
    · rw [hmem]
      rintro ⟨-, o', ho', hdel'⟩
      rw [ho] at ho'
      injection ho' with ho''
      rw [← ho''] at hdel'
      rw [hdel] at hdel'
      cases hdel'
    · rw [containsName_eq_isSome, runFilterPipeline_findName s batch c h n, ho]
      simp [hn, hdel]
    · have hbe : batch.isEmpty = false := by
        cases hbE : batch.isEmpty
        · rfl
        · rw [List.isEmpty_iff.mp hbE] at hn
          cases hn
      exact runFilterPipeline_log_arm s batch c hbe har hm han

/-- Witness for C3: the armature special case on the example scene. -/
theorem c3_category_filter_witness :
    namesNodup sceneEx ∧ "D" ∈ batchEx ∧ sceneEx.findName "D" = some oArmD
    ∧ (("D" ∈ (runFilterPipeline sceneEx batchEx cfgArmSpecial).removed
          ↔ deletedCategory cfgArmSpecial oArmD.type = true)
      ∧ (cfgArmSpecial.import_armatures = true → cfgArmSpecial.import_models = false →
         cfgArmSpecial.import_animations = true → oArmD.type = .ARMATURE →
           ¬ "D" ∈ (runFilterPipeline sceneEx batchEx cfgArmSpecial).removed
           ∧ (runFilterPipeline sceneEx batchEx cfgArmSpecial).scene.containsName "D" = true
           ∧ msgArmatureKept ∈ (runFilterPipeline sceneEx batchEx cfgArmSpecial).log)) :=
  ⟨by decide, by decide, by decide,
    c3_category_filter sceneEx batchEx cfgArmSpecial (by decide) "D" (by decide)
      oArmD (by decide)⟩

/-- C4: with Animations off every surviving object has empty animation
data, with Materials off every surviving object has an empty material-slot
list, and the object itself remains present in the scene. -/
theorem c4_strip_survivors (s : Scene) (batch : List String) (c : ImportConfig)
    (h : namesNodup s) (n : String) (hn : n ∈ batch) (o : SceneObject)
    (ho : s.findName n = some o) (hkeep : deletedCategory c o.type = false) :
    ∃ o', (runFilterPipeline s batch c).scene.findName n = some o'
      ∧ (c.import_animations = false → o'.animData = false)
      ∧ (c.import_materials = false → o'.matSlots.getD [] = []) := by
  refine ⟨finalizeObj c o, ?_, ?_, ?_⟩
  · rw [runFilterPipeline_findName s batch c h n, ho]
    simp [hn, hkeep]
  · intro ha
    simp [finalizeObj, ha]
  · intro hmm
    rcases hms : o.matSlots with - | ⟨- | ⟨m, ms⟩⟩ <;>
      simp [finalizeObj, clearedSlots, hmm, hms]

/-- Witness for C4: the mesh survives `cfgStrip` with animation data and
material slots cleared. -/
theorem c4_strip_survivors_witness :
    namesNodup sceneEx ∧ "A" ∈ batchEx ∧ sceneEx.findName "A" = some oMeshA
    ∧ deletedCategory cfgStrip oMeshA.type = false
    ∧ (∃ o', (runFilterPipeline sceneEx batchEx cfgStrip).scene.findName "A" = some o'
        ∧ (cfgStrip.import_animations = false → o'.animData = false)
        ∧ (cfgStrip.import_materials = false → o'.matSlots.getD [] = [])) :=
  ⟨by decide, by decide, by decide, by decide,
    c4_strip_survivors sceneEx batchEx cfgStrip (by decide) "A" (by decide)
      oMeshA (by decide) (by decide)⟩

/-- C5: the corrective rotation/scale is applied to every object of the
full batch by the transform stage, which in the pipeline runs before any
categorical deletion; the value is assigned absolutely (180 degrees about
the X axis as the code literal 3.14159, uniform 0.01 scale), and any
surviving object carries exactly the transform-stage value afterwards
(applied once, never re-applied by a later step). -/
theorem c5_transform_before_deletion (s : Scene) (batch : List String)
    (c : ImportConfig) (h : namesNodup s) (n : String) (hn : n ∈ batch)
    (o : SceneObject) (ho : s.findName n = some o) :
    ∃ mid, (transformStage (prepSelect s batch) batch c).findName n = some mid
      ∧ (c.apply_rotation = true → mid.rotX = rot180)
      ∧ (c.apply_rotation = false → mid.rotX = o.rotX)
      ∧ (c.apply_scale = true →
          mid.scaleX = scale001 ∧ mid.scaleY = scale001 ∧ mid.scaleZ = scale001)
      ∧ (∀ o', (runFilterPipeline s batch c).scene.findName n = some o' →
          o'.rotX = mid.rotX ∧ o'.scaleX = mid.scaleX
          ∧ o'.scaleY = mid.scaleY ∧ o'.scaleZ = mid.scaleZ) := by
  have hfn' : s.objs.find? (fun o => o.name == n) = some o := ho
  have hbeq := List.find?_some hfn'
  have hon : o.name = n := eq_of_beq hbeq
  have hbc : batch.contains n = true := by simpa using hn
  have hps : (prepSelect s batch).findName n = some o := ho
  refine ⟨tfObj c batch o, ?_, ?_, ?_, ?_, ?_⟩
  · rw [transformStage_findName, hps]
    rfl
  · intro hr
    simp [tfObj, hon, hn, hr]
  · intro hr
    simp [tfObj, hon, hn, hr]
  · intro hsc
    simp [tfObj, hon, hn, hsc]
  · intro o' ho'
    rw [runFilterPipeline_findName s batch c h n, ho] at ho'
    simp only [hn, if_true] at ho'
    cases hdel : deletedCategory c o.type with
    | true =>
      rw [hdel] at ho'
      simp at ho'
    | false =>
      rw [hdel] at ho'
      simp only [Bool.false_eq_true, if_false, Option.some.injEq] at ho'
      rw [← ho']
      simp [finalizeObj, tfObj, hon, hn]

/-- Witness for C5: the camera in the example batch under `cfgStrip`. -/
theorem c5_transform_before_deletion_witness :
    namesNodup sceneEx ∧ "C" ∈ batchEx ∧ sceneEx.findName "C" = some oCamC
    ∧ (∃ mid, (transformStage (prepSelect sceneEx batchEx) batchEx cfgStrip).findName "C" = some mid
        ∧ (cfgStrip.apply_rotation = true → mid.rotX = rot180)
        ∧ (cfgStrip.apply_rotation = false → mid.rotX = oCamC.rotX)
        ∧ (cfgStrip.apply_scale = true →
            mid.scaleX = scale001 ∧ mid.scaleY = scale001 ∧ mid.scaleZ = scale001)
        ∧ (∀ o', (runFilterPipeline sceneEx batchEx cfgStrip).scene.findName "C" = some o' →
            o'.rotX = mid.rotX ∧ o'.scaleX = mid.scaleX
            ∧ o'.scaleY = mid.scaleY ∧ o'.scaleZ = mid.scaleZ)) :=
  ⟨by decide, by decide, by decide,
    c5_transform_before_deletion sceneEx batchEx cfgStrip (by decide) "C" (by decide)
      oCamC (by decide)⟩

/-- C9 counterexample: on a concrete batch where every object survives,
the pipeline ends with an empty active selection, not with the survivors
selected (line 767 deselects everything). -/
theorem c9_counterexample :
    survivorsOf (runFilterPipeline sceneEx batchEx cfgAllOn) batchEx ≠ []
    ∧ (runFilterPipeline sceneEx batchEx cfgAllOn).scene.selected = [] := by
  decide

/-- C9 (amended): when the filter pipeline completes, the final selection
is empty — the survivors are selected only transiently during processing
and the last action is `select_all(action='DESELECT')`. -/
theorem c9_selection_cleared (s : Scene) (batch : List String) (c : ImportConfig) :
    (runFilterPipeline s batch c).scene.selected = [] :=
  runFilterPipeline_selected s batch c

/-- The seven retention flags true and the two corrective flags false. -/
def cfgAllRetained : ImportConfig :=
  { import_models := true, import_lights := true, import_cameras := true,
    import_splines := true, import_animations := true, import_materials := true,
    import_armatures := true, apply_rotation := false, apply_scale := false }

/-- C2 counterexample: with every flag of the Retention Configuration
true — which includes the two corrective-transform flags — the pipeline
does return an empty removed set and keeps every object, but it does
apply a transform: the rotation of mesh "A" changes from 0 to the
corrective constant.  The claim "applies no transform to any object"
is therefore false at this input. -/
theorem c2_counterexample :
    ¬ ((runFilterPipeline sceneEx batchEx cfgAllOn).removed = []
       ∧ survivorsOf (runFilterPipeline sceneEx batchEx cfgAllOn) batchEx = batchEx
       ∧ ((runFilterPipeline sceneEx batchEx cfgAllOn).scene.findName "A").map
            SceneObject.rotX = some 0) := by
  decide

/-- C2 (amended): with the seven retention flags true the pipeline deletes
nothing (`removed = []`) and keeps every batch object as a survivor; and
when additionally the two corrective-transform flags are false, no
transform is applied — the scene is completely unchanged apart from the
final deselection. -/
theorem c2_all_retained (s : Scene) (batch : List String) (c : ImportConfig)
    (h : namesNodup s)
    (hm : c.import_models = true) (hl : c.import_lights = true)
    (hca : c.import_cameras = true) (hsp : c.import_splines = true)
    (han : c.import_animations = true) (hma : c.import_materials = true)
    (har : c.import_armatures = true)
    (hb : ∀ n ∈ batch, s.containsName n = true) :
    (runFilterPipeline s batch c).removed = []
    ∧ survivorsOf (runFilterPipeline s batch c) batch = batch
    ∧ (c.apply_rotation = false → c.apply_scale = false →
        (runFilterPipeline s batch c).scene = s.deselectAll) := by
  have hdelF : ∀ t : ObjType, deletedCategory c t = false := by
    intro t
    cases t <;> simp [deletedCategory, hm, hl, hca, hsp, har]
  refine ⟨?_, ?_, ?_⟩
  · rw [List.eq_nil_iff_forall_not_mem]
    intro n hmem
    rw [runFilterPipeline_removed_mem s batch c h n] at hmem
    rcases hmem with ⟨-, o, -, hdel⟩
    rw [hdelF o.type] at hdel
    cases hdel
  · unfold survivorsOf
    rw [List.filter_eq_self]
    intro n hn
    rw [containsName_eq_isSome, runFilterPipeline_findName s batch c h n]
    have hc := hb n hn
    rw [containsName_eq_isSome] at hc
    cases hfn : s.findName n with
    | none => rw [hfn] at hc; cases hc
    | some o => simp [hfn, hn, hdelF o.type]
  · intro hr hsc
    cases hbe : batch.isEmpty with
    | true => simp [runFilterPipeline, hbe, Scene.deselectAll]
    | false =>
      simp [runFilterPipeline, hbe, transformStage, hr, hsc, delStage,
        hm, hl, hca, hsp, har, han, hma, stripStage, prepSelect,
        Scene.deselectAll, catStage]

/-- Witness for C2 (amended) on the example scene. -/
theorem c2_all_retained_witness :
    namesNodup sceneEx
    ∧ (∀ n ∈ batchEx, sceneEx.containsName n = true)
    ∧ ((runFilterPipeline sceneEx batchEx cfgAllRetained).removed = []
      ∧ survivorsOf (runFilterPipeline sceneEx batchEx cfgAllRetained) batchEx = batchEx
      ∧ (cfgAllRetained.apply_rotation = false → cfgAllRetained.apply_scale = false →
          (runFilterPipeline sceneEx batchEx cfgAllRetained).scene = sceneEx.deselectAll)) :=
  ⟨by decide, by decide,
    c2_all_retained sceneEx batchEx cfgAllRetained (by decide) rfl rfl rfl rfl rfl rfl rfl
      (by decide)⟩

/-- Every survivor of a pipeline run descends from a batch object whose
category is retained, and is exactly its finalised form. -/
theorem survivor_shape (s : Scene) (batch : List String) (c : ImportConfig)
    (h : namesNodup s) (m : String)
    (hms : m ∈ survivorsOf (runFilterPipeline s batch c) batch) :
    ∃ o₀, s.findName m = some o₀ ∧ deletedCategory c o₀.type = false
      ∧ (runFilterPipeline s batch c).scene.findName m = some (finalizeObj c o₀)
      ∧ m ∈ batch := by
  obtain ⟨hmb, hc⟩ := (mem_survivorsOf _ _ m).mp hms
  rw [containsName_eq_isSome] at hc
  have hmm := runFilterPipeline_findName s batch c h m
  cases hfn : s.findName m with
  | none =>
    rw [hfn] at hmm
    rw [hmm] at hc
    cases hc
  | some o₀ =>
    rw [hfn] at hmm
    simp only [hmb, if_true] at hmm
    cases hdel : deletedCategory c o₀.type with
    | true =>
      rw [hdel] at hmm
      simp only [if_true] at hmm
      rw [hmm] at hc
      cases hc
    | false =>
      rw [hdel] at hmm
      simp only [Bool.false_eq_true, if_false] at hmm
      exact ⟨o₀, rfl, hdel, hmm, hmb⟩

theorem sceneExt (X Y : Scene) (ho : X.objs = Y.objs)
    (hs : X.selected = Y.selected) : X = Y := by
  cases X with
  | mk xo xs =>
    cases Y with
    | mk yo ys =>
      simp only at ho hs
      rw [ho, hs]

/-- C6: the filter pipeline is idempotent — running it a second time on
the survivor set of a first run with the same configuration leaves the
scene exactly as the first run left it (no further deletions, no change to
animation data, material slots, rotation or scale, since transforms are
assigned absolutely and every step re-checks object existence), and the
second run removes nothing. -/
theorem c6_idempotent (s : Scene) (batch : List String) (c : ImportConfig)
    (h : namesNodup s) :
    (runFilterPipeline (runFilterPipeline s batch c).scene
        (survivorsOf (runFilterPipeline s batch c) batch) c).scene
      = (runFilterPipeline s batch c).scene
    ∧ (runFilterPipeline (runFilterPipeline s batch c).scene
        (survivorsOf (runFilterPipeline s batch c) batch) c).removed = [] := by
  have hnd1 : namesNodup (runFilterPipeline s batch c).scene :=
    runFilterPipeline_nodup s batch c h
  have hsel1 : (runFilterPipeline s batch c).scene.selected = [] :=
    runFilterPipeline_selected s batch c
  set s1 := (runFilterPipeline s batch c).scene with hs1def
  set surv := survivorsOf (runFilterPipeline s batch c) batch with hsvdef
  have hfix : ∀ o ∈ s1.objs, o.name ∈ surv →
      ∃ o₀, o = finalizeObj c o₀ ∧ deletedCategory c o₀.type = false := by
    intro o hmem hsm
    obtain ⟨o₀, hfn0, hdel0, hfin, hmb⟩ := survivor_shape s batch c h o.name hsm
    have hself : s1.findName o.name = some o := find_self_of_nodup hnd1 hmem
    rw [hself] at hfin
    injection hfin with hfin'
    exact ⟨o₀, hfin', hdel0⟩
  cases hbe2 : surv.isEmpty with
  | true =>
    constructor
    · have h2 : (runFilterPipeline s1 surv c).scene = { s1 with selected := [] } := by
        simp [runFilterPipeline, hbe2, Scene.deselectAll]
      rw [h2, ← hsel1]
    · simp [runFilterPipeline, hbe2]
  | false =>
    -- the transform stage of the second run changes no object
    have hfixR : c.apply_rotation = true → ∀ o ∈ s1.objs,
        (if surv.contains o.name then ({ o with rotX := rot180 } : SceneObject) else o)
          = o := by
      intro hr o hmem
      by_cases hcs : o.name ∈ surv
      · have hcb : surv.contains o.name = true := by simpa using hcs
        obtain ⟨o₀, rfl, -⟩ := hfix o hmem hcs
        have hrot : (finalizeObj c o₀).rotX = rot180 := by simp [finalizeObj, hr]
        simp [hcb, update_rotX_self _ hrot]
      · have hcb : surv.contains o.name = false := by simpa using hcs
        simp [hcb]
        intro hx
        exact absurd hx hcs
    have hfixS : c.apply_scale = true → ∀ o ∈ s1.objs,
        (if surv.contains o.name then
          ({ o with scaleX := scale001, scaleY := scale001, scaleZ := scale001 } : SceneObject)
        else o) = o := by
      intro hsc o hmem
      by_cases hcs : o.name ∈ surv
      · have hcb : surv.contains o.name = true := by simpa using hcs
        obtain ⟨o₀, rfl, -⟩ := hfix o hmem hcs
        have hx : (finalizeObj c o₀).scaleX = scale001 := by simp [finalizeObj, hsc]
        have hy : (finalizeObj c o₀).scaleY = scale001 := by simp [finalizeObj, hsc]
        have hz : (finalizeObj c o₀).scaleZ = scale001 := by simp [finalizeObj, hsc]
        simp [hcb, update_scale_self _ hx hy hz]
      · have hcb : surv.contains o.name = false := by simpa using hcs
        simp [hcb]
        intro hx
        exact absurd hx hcs
    have hT : (transformStage (prepSelect s1 surv) surv c).objs = s1.objs := by
      unfold transformStage applyRotationStep applyScaleStep
      cases hr : c.apply_rotation with
      | false =>
        cases hsc : c.apply_scale with
        | false => rfl
        | true =>
          simp only [Bool.false_eq_true, if_false, if_true]
          exact map_id_of_fix (hfixS hsc)
      | true =>
        cases hsc : c.apply_scale with
        | false =>
          simp only [Bool.false_eq_true, if_false, if_true]
          exact map_id_of_fix (hfixR hr)
        | true =>
          simp only [if_true]
          show ((s1.objs.map (fun o => if surv.contains o.name then
              ({ o with rotX := rot180 } : SceneObject) else o)).map
              (fun o => if surv.contains o.name then
                ({ o with scaleX := scale001, scaleY := scale001, scaleZ := scale001 } : SceneObject)
              else o)) = s1.objs
          rw [map_id_of_fix (hfixR hr)]
          exact map_id_of_fix (hfixS hsc)
    have hX0 : ((transformStage (prepSelect s1 surv) surv c).deselectAll).objs = s1.objs := hT
    have htgt : ∀ (X : Scene), X.objs = s1.objs → ∀ t, deletedCategory c t = true →
        targetedOf X surv t = [] := by
      intro X hXo t hdelt
      unfold targetedOf
      rw [List.eq_nil_iff_forall_not_mem]
      intro m hmF
      obtain ⟨hms, hpred⟩ := List.mem_filter.mp hmF
      obtain ⟨o₀, hfn0, hdel0, hfin, hmb⟩ := survivor_shape s batch c h m hms
      have hXf : X.findName m = s1.findName m := by
        unfold Scene.findName
        rw [hXo]
      rw [hXf, hfin] at hpred
      have hty : o₀.type = t := by
        have h1 := eq_of_beq hpred
        rwa [finalizeObj_type] at h1
      rw [← hty] at hdelt
      rw [hdelt] at hdel0
      cases hdel0
    have hstageGen : ∀ (X : Scene) (t : ObjType) (f : Bool), X.objs = s1.objs →
        (f = true → deletedCategory c t = true) →
        (delStage X surv t f).1.objs = s1.objs ∧ (delStage X surv t f).2 = [] := by
      intro X t f hXo himp
      cases f with
      | false => exact ⟨hXo, rfl⟩
      | true =>
        have htg : targetedOf X surv t = [] := htgt X hXo t (himp rfl)
        constructor
        · rw [delStage_objs, htg, hXo]
          simp
        · rw [delStage_snd, htg]
          simp
    have hst1 := hstageGen ((transformStage (prepSelect s1 surv) surv c).deselectAll)
      .MESH (!c.import_models) hX0
      (by
        intro hf
        have hmf : c.import_models = false := by simpa using hf
        simp [deletedCategory, hmf])
    have hst2 := hstageGen _ .LIGHT (!c.import_lights) hst1.1
      (by
        intro hf
        have hmf : c.import_lights = false := by simpa using hf
        simp [deletedCategory, hmf])
    have hst3 := hstageGen _ .CAMERA (!c.import_cameras) hst2.1
      (by
        intro hf
        have hmf : c.import_cameras = false := by simpa using hf
        simp [deletedCategory, hmf])
    have hst4 := hstageGen _ .CURVE (!c.import_splines) hst3.1
      (by
        intro hf
        have hmf : c.import_splines = false := by simpa using hf
        simp [deletedCategory, hmf])
    have hst5 := hstageGen _ .ARMATURE (!c.import_armatures) hst4.1
      (by
        intro hf
        have hmf : c.import_armatures = false := by simpa using hf
        simp [deletedCategory, hmf])
    have hcatO : (catStage ((transformStage (prepSelect s1 surv) surv c).deselectAll)
        surv c).1.objs = s1.objs := by
      simp only [catStage]
      exact hst5.1
    have hcatR : (catStage ((transformStage (prepSelect s1 surv) surv c).deselectAll)
        surv c).2 = [] := by
      simp only [catStage]
      rw [hst1.2, hst2.2, hst3.2, hst4.2, hst5.2]
      rfl
    have hremSurv : (surv.filter (fun m =>
        !((catStage ((transformStage (prepSelect s1 surv) surv c).deselectAll)
            surv c).2.contains m))) = surv := by
      rw [hcatR]
      simp
    -- the strip stage of the second run changes no object
    have hfixA : c.import_animations = false → ∀ o ∈ s1.objs,
        (if surv.contains o.name && o.animData then
          ({ o with animData := false } : SceneObject) else o) = o := by
      intro ha o hmem
      by_cases hcs : o.name ∈ surv
      · have hcb : surv.contains o.name = true := by simpa using hcs
        obtain ⟨o₀, rfl, -⟩ := hfix o hmem hcs
        have hanim : (finalizeObj c o₀).animData = false := by simp [finalizeObj, ha]
        simp [hcb, hanim]
      · have hcb : surv.contains o.name = false := by simpa using hcs
        simp [hcb]
        intro hx
        exact absurd hx hcs
    have hfixM : c.import_materials = false → ∀ o ∈ s1.objs,
        (if surv.contains o.name then
          (match o.matSlots with
            | some (_ :: _) => ({ o with matSlots := some [] } : SceneObject)
            | _ => o)
        else o) = o := by
      intro hmm o hmem
      by_cases hcs : o.name ∈ surv
      · have hcb : surv.contains o.name = true := by simpa using hcs
        obtain ⟨o₀, rfl, -⟩ := hfix o hmem hcs
        have hms : (finalizeObj c o₀).matSlots = clearedSlots o₀.matSlots := by
          simp [finalizeObj, hmm]
        rcases hms0 : o₀.matSlots with - | ⟨- | ⟨m, ms⟩⟩ <;>
          rw [hms0] at hms <;>
          simp [hcb, hms, clearedSlots]
      · have hcb : surv.contains o.name = false := by simpa using hcs
        simp [hcb]
        intro hx
        exact absurd hx hcs
    have hstripO : (stripStage (catStage ((transformStage (prepSelect s1 surv) surv c).deselectAll)
        surv c).1 surv c).objs = s1.objs := by
      unfold stripStage
      cases hA : (!c.import_animations && !surv.isEmpty) with
      | false =>
        cases hB : (!c.import_materials && !surv.isEmpty) with
        | false =>
          simp only [Bool.false_eq_true, if_false]
          exact hcatO
        | true =>
          simp only [Bool.false_eq_true, if_false, if_true]
          have hmm : c.import_materials = false := by
            simp at hB
            exact hB.1
          show ((catStage ((transformStage (prepSelect s1 surv) surv c).deselectAll)
              surv c).1.objs.map (fun o =>
                if surv.contains o.name then
                  (match o.matSlots with
                    | some (_ :: _) => ({ o with matSlots := some [] } : SceneObject)
                    | _ => o)
                else o)) = s1.objs
          rw [hcatO]
          exact map_id_of_fix (hfixM hmm)
      | true =>
        have ha : c.import_animations = false := by
          simp at hA
          exact hA.1
        cases hB : (!c.import_materials && !surv.isEmpty) with
        | false =>
          simp only [Bool.false_eq_true, if_false, if_true]
          show ((catStage ((transformStage (prepSelect s1 surv) surv c).deselectAll)
              surv c).1.objs.map (fun o =>
                if surv.contains o.name && o.animData then
                  ({ o with animData := false } : SceneObject) else o)) = s1.objs
          rw [hcatO]
          exact map_id_of_fix (hfixA ha)
        | true =>
          have hmm : c.import_materials = false := by
            simp at hB
            exact hB.1
          simp only [if_true]
          show (((catStage ((transformStage (prepSelect s1 surv) surv c).deselectAll)
              surv c).1.objs.map (fun o =>
                if surv.contains o.name && o.animData then
                  ({ o with animData := false } : SceneObject) else o)).map (fun o =>
                if surv.contains o.name then
                  (match o.matSlots with
                    | some (_ :: _) => ({ o with matSlots := some [] } : SceneObject)
                    | _ => o)
                else o)) = s1.objs
          rw [hcatO, map_id_of_fix (hfixA ha)]
          exact map_id_of_fix (hfixM hmm)
    constructor
    · have hscene2 : (runFilterPipeline s1 surv c).scene
          = (stripStage (catStage ((transformStage (prepSelect s1 surv) surv c).deselectAll)
              surv c).1
              (surv.filter (fun m =>
                !((catStage ((transformStage (prepSelect s1 surv) surv c).deselectAll)
                    surv c).2.contains m))) c).deselectAll := by
        simp only [runFilterPipeline, hbe2, Bool.false_eq_true, if_false]
      rw [hscene2, hremSurv]
      refine sceneExt _ _ ?_ ?_
      · exact hstripO
      · rw [hsel1]
        rfl
    · have hrem2 : (runFilterPipeline s1 surv c).removed
          = (catStage ((transformStage (prepSelect s1 surv) surv c).deselectAll)
              surv c).2 := by
        simp only [runFilterPipeline, hbe2, Bool.false_eq_true, if_false]
      rw [hrem2, hcatR]

/-- Witness for C6 on the example scene with lights and animation data
stripped in the first run. -/
theorem c6_idempotent_witness :
    namesNodup sceneEx
    ∧ ((runFilterPipeline (runFilterPipeline sceneEx batchEx cfgStrip).scene
          (survivorsOf (runFilterPipeline sceneEx batchEx cfgStrip) batchEx) cfgStrip).scene
        = (runFilterPipeline sceneEx batchEx cfgStrip).scene
      ∧ (runFilterPipeline (runFilterPipeline sceneEx batchEx cfgStrip).scene
          (survivorsOf (runFilterPipeline sceneEx batchEx cfgStrip) batchEx) cfgStrip).removed = []) :=
  ⟨by decide, c6_idempotent sceneEx batchEx cfgStrip (by decide)⟩

/-- Fully successful external environment for one import invocation. -/
def envOk : ImportEnv :=
  { pathValid := true, maxPythonOk := true, convRunRaises := false,
    convReturncode := 0, fbxExists := true, fbxBlockRaises := false }

/-- C7 counterexample: with the conversion succeeding and the scene diff
yielding an empty Import Batch, the operation surfaces no warning at all —
it reports a single INFO success message and finishes — contrary to the
claim that the caller surfaces a warning. -/
theorem c7_counterexample :
    (∀ r ∈ (runImportOperation envOk cfgAllOn sceneEx []).reports,
        r.1 ≠ ReportLevel.WARNING)
    ∧ (runImportOperation envOk cfgAllOn sceneEx []).status = OpStatus.FINISHED := by
  decide

/-- C7 (amended): when the scene diff yields an empty Import Batch on an
otherwise successful import, the operation treats it as a success rather
than an error or crash: it finishes with status FINISHED, reports a single
INFO message (not a warning and not an error), and still removes the
intermediate FBX file; the generated script file is not removed. -/
theorem c7_empty_batch_soft (env : ImportEnv) (c : ImportConfig) (sp : Scene)
    (h1 : env.pathValid = true) (h2 : env.maxPythonOk = true)
    (h3 : env.convRunRaises = false) (h4 : env.convReturncode = 0)
    (h5 : env.fbxExists = true) (h6 : env.fbxBlockRaises = false) :
    (runImportOperation env c sp []).status = OpStatus.FINISHED
    ∧ (runImportOperation env c sp []).reports
        = [(ReportLevel.INFO, "Successfully imported 3ds Max file")]
    ∧ (runImportOperation env c sp []).fbxRemoveAttempted = true
    ∧ (runImportOperation env c sp []).scriptFileRemoved = false := by
  simp [runImportOperation, h1, h2, h3, h4, h5, h6]

/-- Witness for C7 (amended) at the all-good environment. -/
theorem c7_empty_batch_soft_witness :
    envOk.pathValid = true ∧ envOk.maxPythonOk = true
    ∧ envOk.convRunRaises = false ∧ envOk.convReturncode = 0
    ∧ envOk.fbxExists = true ∧ envOk.fbxBlockRaises = false
    ∧ ((runImportOperation envOk cfgAllOn sceneEx []).status = OpStatus.FINISHED
      ∧ (runImportOperation envOk cfgAllOn sceneEx []).reports
          = [(ReportLevel.INFO, "Successfully imported 3ds Max file")]
      ∧ (runImportOperation envOk cfgAllOn sceneEx []).fbxRemoveAttempted = true
      ∧ (runImportOperation envOk cfgAllOn sceneEx []).scriptFileRemoved = false) :=
  ⟨rfl, rfl, rfl, rfl, rfl, rfl,
    c7_empty_batch_soft envOk cfgAllOn sceneEx rfl rfl rfl rfl rfl rfl⟩

/-- C8 counterexample: on a fully successful import the generated
conversion script (written into the cache directory) is created but never
removed, so not every temporary file is removed on every exit path. -/
theorem c8_counterexample :
    (runImportOperation envOk cfgAllOn sceneEx ["A"]).scriptFileCreated = true
    ∧ (runImportOperation envOk cfgAllOn sceneEx ["A"]).scriptFileRemoved = false
    ∧ (runImportOperation envOk cfgAllOn sceneEx ["A"]).status = OpStatus.FINISHED := by
  decide

/-- C8 (amended): the export operation keeps its intermediate FBX and
generated script inside a temporary directory that is removed on every
exit path; the import operation, however, removes its intermediate FBX
only on the fully successful path (the `os.remove` at line 770 is reached
exactly when the operation finishes), and never removes the generated
script file it wrote into the cache directory. -/
theorem c8_tempfile_cleanup (eenv : ExportEnv) (ienv : ImportEnv)
    (c : ImportConfig) (sp : Scene) (batch : List String) :
    ((runExportOperation eenv).tempDirCreated = true →
        (runExportOperation eenv).tempDirRemoved = true)
    ∧ (runImportOperation ienv c sp batch).scriptFileRemoved = false
    ∧ ((runImportOperation ienv c sp batch).fbxRemoveAttempted = true
        ↔ (runImportOperation ienv c sp batch).status = OpStatus.FINISHED) := by
  refine ⟨?_, ?_, ?_⟩
  · rcases eenv with ⟨mp, ao, fe, fo, sr, rc⟩
    cases mp <;> cases ao <;> cases fe <;> cases fo <;> cases sr <;>
      by_cases hrc : rc = 0 <;>
      simp [runExportOperation, hrc]
  · rcases ienv with ⟨pv, mok, cr, rc, fe, fb⟩
    cases pv <;> cases mok <;> cases cr <;> cases fe <;> cases fb <;>
      by_cases hrc : rc = 0 <;>
      simp [runImportOperation, hrc]
  · rcases ienv with ⟨pv, mok, cr, rc, fe, fb⟩
    cases pv <;> cases mok <;> cases cr <;> cases fe <;> cases fb <;>
      by_cases hrc : rc = 0 <;>
      simp [runImportOperation, hrc]

/-- Witness for C8 (amended): a successful export and a failed-conversion
import. -/
theorem c8_tempfile_cleanup_witness :
    ((runExportOperation ⟨true, true, false, true, false, 0⟩).tempDirCreated = true →
        (runExportOperation ⟨true, true, false, true, false, 0⟩).tempDirRemoved = true)
    ∧ (runImportOperation ⟨true, true, false, 2, false, false⟩ cfgAllOn sceneEx []).scriptFileRemoved = false
    ∧ ((runImportOperation ⟨true, true, false, 2, false, false⟩ cfgAllOn sceneEx []).fbxRemoveAttempted = true
        ↔ (runImportOperation ⟨true, true, false, 2, false, false⟩ cfgAllOn sceneEx []).status
            = OpStatus.FINISHED) :=
  c8_tempfile_cleanup ⟨true, true, false, true, false, 0⟩
    ⟨true, true, false, 2, false, false⟩ cfgAllOn sceneEx []

/-- Export filters with only Models on among the armature-relevant flags. -/
def cfgExpModels : ExportConfig :=
  { export_models := true, export_lights := true, export_cameras := true,
    export_splines := true, export_animations := false, use_selection := false }

/-- An armature that is in the source object set but not in the current
view layer (line 362 skips it). -/
def armOut : ExpObj := { name := "skel", type := .ARMATURE, inViewLayer := false }

/-- An armature in the current view layer. -/
def armIn : ExpObj := { name := "rig", type := .ARMATURE, inViewLayer := true }

/-- C10 counterexample: an armature in the source object set is NOT
selected although the Models flag is true, because it is not in the
current view layer — the claimed equivalence fails as stated. -/
theorem c10_counterexample :
    (cfgExpModels.export_models || cfgExpModels.export_animations) = true
    ∧ armOut ∈ [armOut]
    ∧ ¬ armOut ∈ exportSelection cfgExpModels [armOut] := by
  decide

theorem shouldSelectExport_armature (c : ExportConfig) (o : ExpObj)
    (ht : o.type = .ARMATURE) :
    shouldSelectExport c o = (c.export_models || c.export_animations) := by
  simp [shouldSelectExport, ht]

/-- C10 (amended): among source objects in the current view layer, an
armature is selected for export exactly when the Models flag or the
Animations flag is true; there is no dedicated armature flag on the
export side. -/
theorem c10_armature_selection (c : ExportConfig) (src : List ExpObj) (o : ExpObj)
    (hmem : o ∈ src) (hv : o.inViewLayer = true) (ht : o.type = .ARMATURE) :
    o ∈ exportSelection c src ↔ (c.export_models || c.export_animations) = true := by
  unfold exportSelection
  rw [List.mem_filter]
  constructor
  · rintro ⟨-, hsel⟩
    rw [hv, shouldSelectExport_armature c o ht] at hsel
    simpa using hsel
  · intro hflag
    refine ⟨hmem, ?_⟩
    rw [hv, shouldSelectExport_armature c o ht, hflag]
    rfl

/-- Witness for C10 (amended): a view-layer armature with Models on. -/
theorem c10_armature_selection_witness :
    armIn ∈ [armIn] ∧ armIn.inViewLayer = true ∧ armIn.type = .ARMATURE
    ∧ (armIn ∈ exportSelection cfgExpModels [armIn]
        ↔ (cfgExpModels.export_models || cfgExpModels.export_animations) = true) :=
  ⟨by decide, rfl, rfl,
    c10_armature_selection cfgExpModels [armIn] armIn (by decide) rfl rfl⟩

end MaxBridge
